import Mathlib

/-!
Shallow embedding of `src/app.js` (HandLips/API): an Express backend with
three resources (history, profile, feedback), a MySQL pool-backed `query`
helper, and a Google-Cloud-Storage upload helper.

JavaScript request/response values are modelled by the inductive `JVal`
(JSON values with rational numbers standing in for JS numbers; the claims
under verification never exercise float-specific behaviour).  JS truthiness
and the implicit ToNumber coercion used by `<` / `>` on mixed operands are
modelled by `jsTruthy` and `jsToNumber`.  The database is an explicit state
(lists of rows); `connection.execute` outcomes and storage-stream outcomes
are injected through a `World` record so that both the success and the
throwing paths of every handler are represented.
-/

/-- JSON/JS values as they occur in request bodies and response bodies.
Numbers are rationals (JSON literals are finite decimals). -/
inductive JVal where
  | null : JVal
  | bool (b : Bool) : JVal
  | num (q : ℚ) : JVal
  | str (s : String) : JVal
  | arr (xs : List JVal) : JVal
  | obj (fields : List (String × JVal)) : JVal
deriving Repr, BEq

/-- JS truthiness (`!x` in the source negates this).  `null` and `undefined`
are falsy; `0` is falsy; the empty string is falsy; every array and object
is truthy.  (JS `NaN` is also falsy but is not representable as a parsed
JSON body value, so it does not arise here.) -/
def jsTruthy : JVal → Bool
  | .null => false
  | .bool b => b
  | .num q => q != 0
  | .str s => s != ""
  | .arr _ => true
  | .obj _ => true

/-- Accumulate a run of decimal digits into a natural number. -/
def digitsVal (cs : List Char) : ℕ :=
  cs.foldl (fun a c => a * 10 + (c.toNat - 48)) 0

/-- Parse an unsigned decimal literal (`"12"`, `"12.5"`, `".5"`, `"12."`),
returning `none` for anything else — the `NaN` outcome of JS `Number()`.
(Exponent and hex forms are not modelled; no claim exercises them.) -/
def parseDecimalCore (cs : List Char) : Option ℚ :=
  let ip := cs.takeWhile (·.isDigit)
  let rest := cs.drop ip.length
  match rest with
  | [] => if ip.isEmpty then none else some (digitsVal ip : ℚ)
  | '.' :: fr =>
      if fr.all (·.isDigit) && (!ip.isEmpty || !fr.isEmpty) then
        some ((digitsVal ip : ℚ) + (digitsVal fr : ℚ) / ((10 : ℚ) ^ fr.length))
      else none
  | _ => none

/-- JS `Number(string)`: trim whitespace, empty string is `0`, optional
sign, then a decimal literal; `none` models `NaN`. -/
def jsStringToNumber (s : String) : Option ℚ :=
  let t := (s.toList.dropWhile (·.isWhitespace)).reverse
    |>.dropWhile (·.isWhitespace) |>.reverse
  match t with
  | [] => some 0
  | '-' :: body => (parseDecimalCore body).map (fun q => -q)
  | '+' :: body => parseDecimalCore body
  | _ => parseDecimalCore t

/-- JS ToNumber on a JSON value; `none` models `NaN`.  Arrays and objects
go through ToPrimitive in JS and almost always yield `NaN`; they are
modelled as `none` (no claim applies a numeric comparison to them). -/
def jsToNumber : JVal → Option ℚ
  | .null => some 0
  | .bool b => some (if b then 1 else 0)
  | .num q => some q
  | .str s => jsStringToNumber s
  | .arr _ => none
  | .obj _ => none

/-- JS `v < n` for a number literal `n`: any comparison with `NaN` is false. -/
def jsLtNum (v : JVal) (n : ℚ) : Bool :=
  match jsToNumber v with
  | none => false
  | some q => q < n

/-- JS `v > n` for a number literal `n`: any comparison with `NaN` is false. -/
def jsGtNum (v : JVal) (n : ℚ) : Bool :=
  match jsToNumber v with
  | none => false
  | some q => n < q

/-- Field lookup in a JSON object (used to inspect response envelopes). -/
def JVal.getField : JVal → String → Option JVal
  | .obj fields, k => fields.lookup k
  | _, _ => none

/-- A row of the `history` table: `id, title, message, created_at`.
Column values inserted by the handlers are the JS values they bound. -/
structure HistoryRow where
  id : ℕ
  title : JVal
  message : JVal
  createdAt : ℕ
deriving Repr

/-- The singleton-by-convention `profile` table row:
`id, name, profile_picture_url` (nullable). -/
structure ProfileRow where
  id : ℕ
  name : JVal
  profile_picture_url : Option String
deriving Repr

/-- A row of the `feedback` table: `id, comment, rating`. -/
structure FeedbackRow where
  id : ℕ
  comment : JVal
  rating : JVal
deriving Repr

/-- The relational store: the three tables plus the auto-increment counter
that produces `insertId`. -/
structure DB where
  history : List HistoryRow
  profile : List ProfileRow
  feedback : List FeedbackRow
  nextId : ℕ
deriving Repr

/-- The connection pool (`mysql.createPool`, `connectionLimit: 10`):
only the number of connections currently checked out is observable to the
`query` helper. -/
structure Pool where
  inUse : ℕ
deriving Repr, DecidableEq

/-- `pool.getConnection()`: check a connection out. -/
def Pool.getConnection (p : Pool) : Pool := { inUse := p.inUse + 1 }

/-- `connection.release()`: return a connection to the pool. -/
def Pool.release (p : Pool) : Pool := { inUse := p.inUse - 1 }

/-- The `query` helper (app.js lines 55–63): acquire a connection, run the
statement inside `try`, release in `finally` on both the return path and
the throw path, propagating the outcome unchanged.  The outcome of
`connection.execute` (result set, or thrown error message) is passed in as
`exec`. -/
def query (p : Pool) (exec : Except String α) : Except String α × Pool :=
  let acquired := p.getConnection
  match exec with
  | .ok results => (.ok results, acquired.release)
  | .error e => (.error e, acquired.release)

/-- An in-memory multer file: original name, MIME type, byte size. -/
structure UploadedFile where
  originalname : String
  mimetype : String
  size : ℕ
deriving Repr, DecidableEq

/-- The multer `fileFilter` allow-list (app.js line 39). -/
def allowedMimes : List String := ["image/jpeg", "image/png", "image/jpg"]

/-- The multer transport-layer validation (app.js lines 36–49): the
`fileFilter` rejects a disallowed MIME type with the handler-supplied
error, and the `limits.fileSize` of 5 MiB makes multer emit its
`LIMIT_FILE_SIZE` error ("File too large") while buffering an oversized
file.  Either error is routed to the global error middleware, not thrown
as a crash. -/
def multerCheck (f : UploadedFile) : Except String Unit :=
  if f.mimetype ∈ allowedMimes then
    if f.size ≤ 5 * 1024 * 1024 then .ok () else .error "File too large"
  else .error "File harus berupa gambar."

/-- The storage key `profiles/<Date.now()>-<file.originalname>`
(app.js line 67). -/
def storageKey (now : ℕ) (originalname : String) : String :=
  "profiles/" ++ toString now ++ "-" ++ originalname

/-- The public URL `https://storage.googleapis.com/<bucket.name>/<blob.name>`
(app.js line 78). -/
def publicUrl (bucketName : String) (key : String) : String :=
  "https://storage.googleapis.com/" ++ bucketName ++ "/" ++ key

/-- One HTTP response: status code and JSON body. -/
structure Response where
  status : ℕ
  body : JVal
deriving Repr

/-- All mutable/ambient state a request can touch, plus the injected
outcomes of the two external collaborators: `dbOk`/`dbErr` give the
outcome of `connection.execute`, `storageOk`/`storageErr` the outcome of
the storage write stream.  `stored` is the set of finalized storage
objects (key and content type); `now` is `Date.now()` at this request. -/
structure World where
  db : DB
  pool : Pool
  stored : List (String × String)
  now : ℕ
  bucketName : String
  dbOk : Bool
  dbErr : String
  storageOk : Bool
  storageErr : String
deriving Repr

/-- The `uploadFile` helper (app.js lines 66–83): derive the blob key,
stream the buffer, and either resolve with the public URL (stream
`finish`) or reject with the stream error; a finished write adds the
object, with the file's content type as metadata, to the bucket. -/
def uploadFile (w : World) (f : UploadedFile) :
    Except String String × List (String × String) :=
  let key := storageKey w.now f.originalname
  if w.storageOk then
    (.ok (publicUrl w.bucketName key), w.stored ++ [(key, f.mimetype)])
  else
    (.error w.storageErr, w.stored)

/-- The global error-handling middleware (app.js lines 274–279):
`500 {success:false, message: err.message}`. -/
def errorMiddleware (e : String) : Response :=
  { status := 500
    body := .obj [("success", .bool false), ("message", .str e)] }

/-- JSON serialization of a history row, as `SELECT *` returns it. -/
def HistoryRow.toJVal (r : HistoryRow) : JVal :=
  .obj [("id", .num r.id), ("title", r.title), ("message", r.message),
        ("created_at", .num r.createdAt)]

/-- JSON serialization of the profile row, as `SELECT *` returns it. -/
def ProfileRow.toJVal (r : ProfileRow) : JVal :=
  .obj [("id", .num r.id), ("name", r.name),
        ("profile_picture_url",
          match r.profile_picture_url with
          | some u => .str u
          | none => .null)]

/-- Insert a row keeping the list ordered by `createdAt` descending —
the result-set order of `ORDER BY created_at DESC`. -/
def insertByCreatedAtDesc (r : HistoryRow) :
    List HistoryRow → List HistoryRow
  | [] => [r]
  | x :: xs =>
      if x.createdAt ≥ r.createdAt then x :: insertByCreatedAtDesc r xs
      else r :: x :: xs

/-- `SELECT * FROM history ORDER BY created_at DESC`. -/
def historyOrdered (rows : List HistoryRow) : List HistoryRow :=
  rows.foldr insertByCreatedAtDesc []

/-- `res.json({success:true, data})` with an explicit status. -/
def okResponse (status : ℕ) (data : JVal) : Response :=
  { status := status
    body := .obj [("success", .bool true), ("data", data)] }

/-- `res.status(s).json({success:false, message})`. -/
def failResponse (status : ℕ) (message : String) : Response :=
  { status := status
    body := .obj [("success", .bool false), ("message", .str message)] }

/-- The `connection.execute` outcome injected from the world: the given
result set on success, the world's database error on failure. -/
def execOutcome (w : World) (results : α) : Except String α :=
  if w.dbOk then .ok results else .error w.dbErr

/-- `POST /api/history` handler (app.js lines 88–118): require truthy
`title` and `message` (400 otherwise), insert, answer 201 echoing the
fields with the generated `insertId`; a thrown query error is caught and
answered 500 with its message. -/
def postHistoryHandler (title message : JVal) (w : World) :
    Response × World :=
  if !jsTruthy title || !jsTruthy message then
    (failResponse 400 "Judul dan pesan harus diisi", w)
  else
    let newRow : HistoryRow :=
      { id := w.db.nextId, title := title, message := message,
        createdAt := w.now }
    let (res, pool') := query w.pool (execOutcome w w.db.nextId)
    match res with
    | .error e => (failResponse 500 e, { w with pool := pool' })
    | .ok insertId =>
        let db' : DB :=
          { w.db with history := w.db.history ++ [newRow],
                      nextId := w.db.nextId + 1 }
        (okResponse 201
          (.obj [("id", .num insertId), ("title", title),
                 ("message", message)]),
         { w with db := db', pool := pool' })

/-- `GET /api/history` handler (app.js lines 121–137): return every row
ordered by `created_at` descending, enveloped with status 200; a thrown
query error is caught and answered 500. -/
def getHistoryHandler (w : World) : Response × World :=
  let (res, pool') :=
    query w.pool (execOutcome w (historyOrdered w.db.history))
  match res with
  | .error e => (failResponse 500 e, { w with pool := pool' })
  | .ok rows =>
      (okResponse 200 (.arr (rows.map HistoryRow.toJVal)),
       { w with pool := pool' })

/-- `GET /api/history/:id` handler (app.js lines 140–163):
`SELECT * FROM history WHERE id = ?` destructured to its first row; a
missing row answers `404 {success:false, message:"Tidak memiliki akses"}`;
a thrown query error is caught and answered 500. -/
def getHistoryByIdHandler (id : ℕ) (w : World) : Response × World :=
  let (res, pool') :=
    query w.pool (execOutcome w (w.db.history.filter (fun r => r.id = id)))
  match res with
  | .error e => (failResponse 500 e, { w with pool := pool' })
  | .ok rows =>
      match rows.head? with
      | none =>
          (failResponse 404 "Tidak memiliki akses", { w with pool := pool' })
      | some row =>
          (okResponse 200 row.toJVal, { w with pool := pool' })

/-- `GET /api/profile` handler (app.js lines 168–189):
`SELECT * FROM profile LIMIT 1` destructured to its first row — no id
filter; a missing row answers 404 "Profil tidak ditemukan"; a thrown
query error is caught and answered 500. -/
def getProfileHandler (w : World) : Response × World :=
  let (res, pool') := query w.pool (execOutcome w (w.db.profile.take 1))
  match res with
  | .error e => (failResponse 500 e, { w with pool := pool' })
  | .ok rows =>
      match rows.head? with
      | none =>
          (failResponse 404 "Profil tidak ditemukan",
           { w with pool := pool' })
      | some row => (okResponse 200 row.toJVal, { w with pool := pool' })

/-- The `UPDATE profile SET ... WHERE id = 1` effect on the table: both
SQL shapes write only rows whose `id` is 1; the two-parameter shape also
replaces `profile_picture_url`.  (`picUrl` reflects the handler's
`profilePictureUrl ? ... : ...` test: the URL, when present, is a
nonempty `https://` string, hence truthy.) -/
def updateProfileRows (name : JVal) (picUrl : Option String)
    (rows : List ProfileRow) : List ProfileRow :=
  rows.map (fun r =>
    if r.id = 1 then
      match picUrl with
      | some u => { r with name := name, profile_picture_url := some u }
      | none => { r with name := name }
    else r)

/-- `PUT /api/profile` handler body (app.js lines 192–229), entered after
multer has accepted (or found no) file: require truthy `name` (400
otherwise); if a file is present, await `uploadFile` — a rejected upload
is caught and answered 500 before any query runs; then run the update
statement whose shape depends on whether a picture URL was produced, and
answer 200 with `{name, profile_picture_url}` where the URL field is the
freshly produced URL or `null` — never a re-fetched stored value. -/
def putProfileHandler (name : JVal) (file : Option UploadedFile)
    (w : World) : Response × World :=
  if !jsTruthy name then
    (failResponse 400 "Name is required", w)
  else
    let uploadStep : Except String (Option String) × List (String × String) :=
      match file with
      | none => (.ok none, w.stored)
      | some f =>
          let (r, stored') := uploadFile w f
          (r.map some, stored')
    match uploadStep with
    | (.error e, stored') => (failResponse 500 e, { w with stored := stored' })
    | (.ok picUrl, stored') =>
        let (res, pool') := query w.pool (execOutcome w ())
        match res with
        | .error e =>
            (failResponse 500 e, { w with pool := pool', stored := stored' })
        | .ok _ =>
            let db' : DB :=
              { w.db with
                  profile := updateProfileRows name picUrl w.db.profile }
            (okResponse 200
              (.obj [("name", name),
                     ("profile_picture_url",
                       match picUrl with
                       | some u => .str u
                       | none => .null)]),
             { w with db := db', pool := pool', stored := stored' })

/-- `POST /api/feedback` handler (app.js lines 234–271): require truthy
`comment` and `rating` (400 "Komentar dan rating harus diisi" otherwise);
reject `rating < 1 || rating > 4` with 400 "Rating harus antara 1-4" —
JS comparison semantics, so a NaN-valued rating fails both comparisons;
insert and answer 201 echoing the fields with the generated `insertId`;
a thrown query error is caught and answered 500. -/
def postFeedbackHandler (comment rating : JVal) (w : World) :
    Response × World :=
  if !jsTruthy comment || !jsTruthy rating then
    (failResponse 400 "Komentar dan rating harus diisi", w)
  else if jsLtNum rating 1 || jsGtNum rating 4 then
    (failResponse 400 "Rating harus antara 1-4", w)
  else
    let newRow : FeedbackRow :=
      { id := w.db.nextId, comment := comment, rating := rating }
    let (res, pool') := query w.pool (execOutcome w w.db.nextId)
    match res with
    | .error e => (failResponse 500 e, { w with pool := pool' })
    | .ok insertId =>
        let db' : DB :=
          { w.db with feedback := w.db.feedback ++ [newRow],
                      nextId := w.db.nextId + 1 }
        (okResponse 201
          (.obj [("id", .num insertId), ("comment", comment),
                 ("rating", rating)]),
         { w with db := db', pool := pool' })

/-- One request to any of the six endpoints.  `putProfile` carries the
multipart `name` field and the optional `profile_picture` file. -/
inductive Request where
  | postHistory (title message : JVal) : Request
  | getHistory : Request
  | getHistoryById (id : ℕ) : Request
  | getProfile : Request
  | putProfile (name : JVal) (file : Option UploadedFile) : Request
  | postFeedback (comment rating : JVal) : Request

/-- The router: dispatch a request to its handler.  For `PUT /api/profile`
the `upload.single("profile_picture")` middleware runs first: a file
failing the MIME allow-list or the 5 MiB limit short-circuits to the
global error middleware (status 500) and the handler never runs. -/
def handle (req : Request) (w : World) : Response × World :=
  match req with
  | .postHistory title message => postHistoryHandler title message w
  | .getHistory => getHistoryHandler w
  | .getHistoryById id => getHistoryByIdHandler id w
  | .getProfile => getProfileHandler w
  | .putProfile name file =>
      match file with
      | some f =>
          match multerCheck f with
          | .error e => (errorMiddleware e, w)
          | .ok _ => putProfileHandler name (some f) w
      | none => putProfileHandler name none w
  | .postFeedback comment rating => postFeedbackHandler comment rating w

/-! ### Concrete example states used by witnesses and counterexamples -/

/-- A valid in-memory image file. -/
def exampleFile : UploadedFile :=
  { originalname := "me.png", mimetype := "image/png", size := 1024 }

/-- A file with a disallowed MIME type. -/
def examplePdf : UploadedFile :=
  { originalname := "doc.pdf", mimetype := "application/pdf", size := 1024 }

/-- A small concrete database: no history rows, one pre-seeded profile row
(whose id happens to be 2), no feedback, next auto-increment id 7. -/
def exampleDB : DB :=
  { history := []
    profile := [{ id := 2, name := .str "seed",
                  profile_picture_url := some "https://old.example/pic.png" }]
    feedback := []
    nextId := 7 }

/-- A concrete world in which both collaborators succeed. -/
def exampleWorld : World :=
  { db := exampleDB, pool := { inUse := 0 }, stored := []
    now := 1700000000000, bucketName := "handlips-bucket"
    dbOk := true, dbErr := "db down"
    storageOk := true, storageErr := "stream error" }

/-! ### Shared helper lemmas -/

/-- The `query` helper returns the execute outcome unchanged and restores
the pool (acquire immediately followed by the `finally` release). -/
theorem query_eq {α : Type} (p : Pool) (exec : Except String α) :
    query p exec = (exec, p) := by
  cases exec <;> simp [query, Pool.getConnection, Pool.release]

/-- Branch characterization: a file rejected by multer short-circuits to
the error middleware and nothing else runs. -/
theorem putProfile_multerError_eq (name : JVal) (f : UploadedFile)
    (w : World) (e : String) (hm : multerCheck f = .error e) :
    handle (.putProfile name (some f)) w = (errorMiddleware e, w) := by
  simp [handle, hm]

/-- Branch characterization: a falsy `name` is answered 400 before any
upload or query. -/
theorem putProfile_badName_eq (name : JVal) (file : Option UploadedFile)
    (w : World) (hn : jsTruthy name = false)
    (hok : ∀ f, file = some f → multerCheck f = .ok ()) :
    handle (.putProfile name file) w =
      (failResponse 400 "Name is required", w) := by
  cases file with
  | none => simp [handle, putProfileHandler, hn]
  | some f => simp [handle, hok f rfl, putProfileHandler, hn]

/-- Branch characterization: with a multer-accepted file and truthy name,
a failing storage stream is caught and answered 500 with the stream error;
neither the database nor the bucket changes. -/
theorem putProfile_storageError_eq (name : JVal) (f : UploadedFile)
    (w : World) (hm : multerCheck f = .ok ()) (hn : jsTruthy name = true)
    (hs : w.storageOk = false) :
    handle (.putProfile name (some f)) w =
      (failResponse 500 w.storageErr, w) := by
  simp [handle, hm, putProfileHandler, hn, uploadFile, hs, Except.map]
  rw [← hs]

/-- Branch characterization: successful update without a file — the
one-parameter SQL shape runs and the response carries a `null` picture
URL. -/
theorem putProfile_none_ok_eq (name : JVal) (w : World)
    (hn : jsTruthy name = true) (hdb : w.dbOk = true) :
    handle (.putProfile name none) w =
      (okResponse 200 (.obj [("name", name), ("profile_picture_url", .null)]),
       { w with db :=
          { w.db with profile := updateProfileRows name none w.db.profile } }) := by
  simp [handle, putProfileHandler, hn, query_eq, execOutcome, hdb]

/-- Branch characterization: successful update with a multer-accepted
file — the upload finishes first, then the two-parameter SQL shape runs,
and the response carries the freshly derived URL. -/
theorem putProfile_some_ok_eq (name : JVal) (f : UploadedFile) (w : World)
    (hm : multerCheck f = .ok ()) (hn : jsTruthy name = true)
    (hs : w.storageOk = true) (hdb : w.dbOk = true) :
    handle (.putProfile name (some f)) w =
      (okResponse 200
        (.obj [("name", name),
               ("profile_picture_url",
                 .str (publicUrl w.bucketName (storageKey w.now f.originalname)))]),
       { w with
          db := { w.db with
                    profile := updateProfileRows name
                      (some (publicUrl w.bucketName (storageKey w.now f.originalname)))
                      w.db.profile }
          stored := w.stored ++ [(storageKey w.now f.originalname, f.mimetype)] }) := by
  simp [handle, hm, putProfileHandler, hn, uploadFile, hs, query_eq,
        execOutcome, hdb, Except.map]

/-- Branch characterization: truthy name, upload (if any) succeeded, but
`connection.execute` throws — caught and answered 500 with the database
error; the database is unchanged, though a supplied file has already been
written to the bucket. -/
theorem putProfile_dbError_eq (name : JVal) (file : Option UploadedFile)
    (w : World) (hn : jsTruthy name = true)
    (hok : ∀ f, file = some f → multerCheck f = .ok ())
    (hs : ∀ f, file = some f → w.storageOk = true) (hdb : w.dbOk = false) :
    handle (.putProfile name file) w =
      (failResponse 500 w.dbErr,
       { w with stored := w.stored ++
          (match file with
           | some f => [(storageKey w.now f.originalname, f.mimetype)]
           | none => []) }) := by
  cases file with
  | none => simp [handle, putProfileHandler, hn, query_eq, execOutcome, hdb]
  | some f =>
      simp [handle, hok f rfl, putProfileHandler, hn, uploadFile, hs f rfl,
            query_eq, execOutcome, hdb, Except.map]

/-! ### Claim theorems -/

/-- C5: every invocation of the `query` helper releases the acquired
pooled connection on both exit paths — the pool it returns is exactly the
pool it started from — and the statement outcome (result set or thrown
error) is propagated to the caller unmodified. -/
theorem query_releases_and_propagates {α : Type} (p : Pool)
    (exec : Except String α) :
    query p exec = (exec, p) :=
  query_eq p exec

/-- C7: for every file accepted by the upload pipeline, the storage key is
exactly `profiles/<upload-timestamp>-<original-filename>`, and a
successful write stores exactly that key and returns exactly the public
URL `https://storage.googleapis.com/<bucket-name>/<key>`. -/
theorem uploadFile_key_and_url (w : World) (f : UploadedFile)
    (hs : w.storageOk = true) :
    uploadFile w f =
      (.ok ("https://storage.googleapis.com/" ++ w.bucketName ++ "/" ++
            ("profiles/" ++ toString w.now ++ "-" ++ f.originalname)),
       w.stored ++
         [("profiles/" ++ toString w.now ++ "-" ++ f.originalname,
           f.mimetype)]) := by
  simp [uploadFile, hs, storageKey, publicUrl]

/-- Witness for C7 at a concrete world and file. -/
theorem uploadFile_key_and_url_witness :
    uploadFile exampleWorld exampleFile =
      (.ok "https://storage.googleapis.com/handlips-bucket/profiles/1700000000000-me.png",
       [("profiles/1700000000000-me.png", "image/png")]) := by
  have h := uploadFile_key_and_url exampleWorld exampleFile rfl
  simpa [exampleWorld, exampleFile] using h

/-- C8: a `GET /api/history/:id` request for an id that matches no history
row is answered 404 with the generic body
`{success:false, message:"Tidak memiliki akses"}`. -/
theorem getHistoryById_absent_404 (id : ℕ) (w : World)
    (hdb : w.dbOk = true) (habs : ∀ r ∈ w.db.history, r.id ≠ id) :
    (handle (.getHistoryById id) w).1 =
      failResponse 404 "Tidak memiliki akses" := by
  have hfil : w.db.history.filter (fun r => r.id = id) = [] := by
    rw [List.filter_eq_nil_iff]
    intro a ha
    simpa using habs a ha
  simp [handle, getHistoryByIdHandler, query_eq, execOutcome, hdb, hfil]

/-- Witness for C8: id 999 against the example database. -/
theorem getHistoryById_absent_404_witness :
    (handle (.getHistoryById 999) exampleWorld).1 =
      failResponse 404 "Tidak memiliki akses" :=
  getHistoryById_absent_404 999 exampleWorld rfl
    (by simp [exampleWorld, exampleDB])

/-- C1 counterexample: the non-numeric rating `"abc"` (truthy, and NaN
under ToNumber, so both range comparisons are false) is NOT rejected:
the request is answered 201 and the row is inserted. -/
theorem feedback_nonnumeric_rating_inserted :
    (handle (.postFeedback (.str "great") (.str "abc")) exampleWorld).1.status
        = 201 ∧
    (handle (.postFeedback (.str "great") (.str "abc")) exampleWorld).2.db.feedback
        = [{ id := 7, comment := .str "great", rating := .str "abc" }] := by
  constructor <;> rfl

/-- Branch characterization: a falsy comment or rating is answered 400
("must be filled") with no state change. -/
theorem postFeedback_invalid_eq (c rat : JVal) (w : World)
    (hfalsy : (!jsTruthy c || !jsTruthy rat) = true) :
    handle (.postFeedback c rat) w =
      (failResponse 400 "Komentar dan rating harus diisi", w) := by
  simp [handle, postFeedbackHandler, hfalsy]

/-- Branch characterization: truthy fields with `rating < 1 || rating > 4`
(JS comparison semantics) are answered 400 ("Rating harus antara 1-4")
with no state change. -/
theorem postFeedback_range_eq (c rat : JVal) (w : World)
    (hc : jsTruthy c = true) (hr : jsTruthy rat = true)
    (hro : (jsLtNum rat 1 || jsGtNum rat 4) = true) :
    handle (.postFeedback c rat) w =
      (failResponse 400 "Rating harus antara 1-4", w) := by
  simp [handle, postFeedbackHandler, hc, hr, hro]

/-- Branch characterization: validation passed and the insert succeeded —
201 echoing the fields with the generated id, row appended. -/
theorem postFeedback_ok_eq (c rat : JVal) (w : World)
    (hc : jsTruthy c = true) (hr : jsTruthy rat = true)
    (hro : (jsLtNum rat 1 || jsGtNum rat 4) = false)
    (hdb : w.dbOk = true) :
    handle (.postFeedback c rat) w =
      (okResponse 201
        (.obj [("id", .num w.db.nextId), ("comment", c), ("rating", rat)]),
       { w with db := { w.db with
          feedback := w.db.feedback ++
            [{ id := w.db.nextId, comment := c, rating := rat }],
          nextId := w.db.nextId + 1 } }) := by
  simp [handle, postFeedbackHandler, hc, hr, hro, query_eq, execOutcome, hdb]

/-- Branch characterization: validation passed but the insert threw — the
error is caught and answered 500, no state change. -/
theorem postFeedback_dbError_eq (c rat : JVal) (w : World)
    (hc : jsTruthy c = true) (hr : jsTruthy rat = true)
    (hro : (jsLtNum rat 1 || jsGtNum rat 4) = false)
    (hdb : w.dbOk = false) :
    handle (.postFeedback c rat) w = (failResponse 500 w.dbErr, w) := by
  simp [handle, postFeedbackHandler, hc, hr, hro, query_eq, execOutcome, hdb]
  rw [← hdb]

/-- C1 amended: with a truthy comment and a *numeric* rating `r`, the
request is accepted (201, row appended) iff `1 ≤ r ≤ 4`, and otherwise it
is answered 400 with no state change (`r = 0` falls to the truthiness
check, out-of-range `r` to the range check).  Truthy non-numeric ratings
are not covered: they pass the range check and are inserted. -/
theorem feedback_rating_numeric_iff (c : JVal) (hc : jsTruthy c = true)
    (r : ℚ) (w : World) (hdb : w.dbOk = true) :
    (((handle (.postFeedback c (.num r)) w).1.status = 201 ∧
      (handle (.postFeedback c (.num r)) w).2.db.feedback =
        w.db.feedback ++
          [{ id := w.db.nextId, comment := c, rating := .num r }]) ↔
      (1 ≤ r ∧ r ≤ 4)) ∧
    (¬ (1 ≤ r ∧ r ≤ 4) →
      (handle (.postFeedback c (.num r)) w).1.status = 400 ∧
      (handle (.postFeedback c (.num r)) w).2 = w) := by
  by_cases h0 : r = 0
  · subst h0
    have hf : (!jsTruthy c || !jsTruthy (JVal.num 0)) = true := by
      simp [jsTruthy]
    rw [postFeedback_invalid_eq c _ w hf]
    refine ⟨⟨fun h => absurd h.1 (by simp [failResponse]), fun h => absurd h.1 (by norm_num)⟩, fun _ => ⟨rfl, rfl⟩⟩
  · have hr : jsTruthy (JVal.num r) = true := by simp [jsTruthy, h0]
    by_cases h1 : 1 ≤ r
    · by_cases h4 : r ≤ 4
      · have hro : (jsLtNum (JVal.num r) 1 || jsGtNum (JVal.num r) 4) = false := by
          simp only [jsLtNum, jsGtNum, jsToNumber, Bool.or_eq_false_iff,
            decide_eq_false_iff_not, not_lt]
          exact ⟨h1, h4⟩
        rw [postFeedback_ok_eq c _ w hc hr hro hdb]
        refine ⟨⟨fun _ => ⟨h1, h4⟩, fun _ => ⟨rfl, rfl⟩⟩, fun hab => absurd ⟨h1, h4⟩ hab⟩
      · have hro : (jsLtNum (JVal.num r) 1 || jsGtNum (JVal.num r) 4) = true := by
          simp only [jsLtNum, jsGtNum, jsToNumber, Bool.or_eq_true,
            decide_eq_true_eq]
          exact Or.inr (not_le.mp h4)
        rw [postFeedback_range_eq c _ w hc hr hro]
        refine ⟨⟨fun h => absurd h.1 (by simp [failResponse]),
                 fun h => absurd h.2 h4⟩, fun _ => ⟨rfl, rfl⟩⟩
    · have hro : (jsLtNum (JVal.num r) 1 || jsGtNum (JVal.num r) 4) = true := by
        simp only [jsLtNum, jsGtNum, jsToNumber, Bool.or_eq_true,
          decide_eq_true_eq]
        exact Or.inl (not_le.mp h1)
      rw [postFeedback_range_eq c _ w hc hr hro]
      refine ⟨⟨fun h => absurd h.1 (by simp [failResponse]),
               fun h => absurd h.1 h1⟩, fun _ => ⟨rfl, rfl⟩⟩

/-- Witness for the amended C1: `{"comment":"great","rating":4}` against
the example world is accepted and the row is stored. -/
theorem feedback_rating_numeric_iff_witness :
    (handle (.postFeedback (.str "great") (.num 4)) exampleWorld).1.status
        = 201 ∧
    (handle (.postFeedback (.str "great") (.num 4)) exampleWorld).2.db.feedback
        = exampleWorld.db.feedback ++
            [{ id := exampleWorld.db.nextId, comment := .str "great",
               rating := .num 4 }] :=
  ((feedback_rating_numeric_iff (.str "great") rfl 4 exampleWorld rfl).1).mpr
    (by norm_num)

/-- Branch characterization: `POST /api/history` with a falsy title or
message is answered 400 with no state change. -/
theorem postHistory_invalid_eq (t m : JVal) (w : World)
    (hfalsy : (!jsTruthy t || !jsTruthy m) = true) :
    handle (.postHistory t m) w =
      (failResponse 400 "Judul dan pesan harus diisi", w) := by
  simp [handle, postHistoryHandler, hfalsy]

/-- Branch characterization: `POST /api/history` with truthy fields and a
successful insert — 201 echoing the fields with the generated id. -/
theorem postHistory_ok_eq (t m : JVal) (w : World)
    (ht : jsTruthy t = true) (hm : jsTruthy m = true)
    (hdb : w.dbOk = true) :
    handle (.postHistory t m) w =
      (okResponse 201
        (.obj [("id", .num w.db.nextId), ("title", t), ("message", m)]),
       { w with db := { w.db with
          history := w.db.history ++
            [{ id := w.db.nextId, title := t, message := m,
               createdAt := w.now }],
          nextId := w.db.nextId + 1 } }) := by
  simp [handle, postHistoryHandler, ht, hm, query_eq, execOutcome, hdb]

/-- Branch characterization: `POST /api/history` whose insert threw — the
error is caught and answered 500, no state change. -/
theorem postHistory_dbError_eq (t m : JVal) (w : World)
    (ht : jsTruthy t = true) (hm : jsTruthy m = true)
    (hdb : w.dbOk = false) :
    handle (.postHistory t m) w = (failResponse 500 w.dbErr, w) := by
  simp [handle, postHistoryHandler, ht, hm, query_eq, execOutcome, hdb]
  rw [← hdb]

/-- Branch characterization: `GET /api/history` with a successful select —
200 with the serialized ordered rows. -/
theorem getHistory_ok_eq (w : World) (hdb : w.dbOk = true) :
    handle .getHistory w =
      (okResponse 200
        (.arr ((historyOrdered w.db.history).map HistoryRow.toJVal)), w) := by
  simp [handle, getHistoryHandler, query_eq, execOutcome, hdb]
  rw [← hdb]

/-- Branch characterization: `GET /api/history` whose select threw —
caught and answered 500. -/
theorem getHistory_dbError_eq (w : World) (hdb : w.dbOk = false) :
    handle .getHistory w = (failResponse 500 w.dbErr, w) := by
  simp [handle, getHistoryHandler, query_eq, execOutcome, hdb]
  rw [← hdb]

/-- Branch characterization: `GET /api/history/:id` when the select throws
— caught and answered 500. -/
theorem getHistoryById_dbError_eq (id : ℕ) (w : World)
    (hdb : w.dbOk = false) :
    handle (.getHistoryById id) w = (failResponse 500 w.dbErr, w) := by
  simp [handle, getHistoryByIdHandler, query_eq, execOutcome, hdb]
  rw [← hdb]

/-- Branch characterization: `GET /api/history/:id` when the filtered
result set is empty — 404 with the generic "no access" body. -/
theorem getHistoryById_absent_eq (id : ℕ) (w : World) (hdb : w.dbOk = true)
    (hnone : (w.db.history.filter (fun r => r.id = id)).head? = none) :
    handle (.getHistoryById id) w =
      (failResponse 404 "Tidak memiliki akses", w) := by
  simp [handle, getHistoryByIdHandler, query_eq, execOutcome, hdb, hnone]
  rw [← hdb]

/-- Branch characterization: `GET /api/history/:id` when a row matches —
200 with the serialized row. -/
theorem getHistoryById_found_eq (id : ℕ) (w : World) (row : HistoryRow)
    (hdb : w.dbOk = true)
    (hsome : (w.db.history.filter (fun r => r.id = id)).head? = some row) :
    handle (.getHistoryById id) w = (okResponse 200 row.toJVal, w) := by
  simp [handle, getHistoryByIdHandler, query_eq, execOutcome, hdb, hsome]
  rw [← hdb]

/-- Branch characterization: `GET /api/profile` when the select throws —
caught and answered 500. -/
theorem getProfile_dbError_eq (w : World) (hdb : w.dbOk = false) :
    handle .getProfile w = (failResponse 500 w.dbErr, w) := by
  simp [handle, getProfileHandler, query_eq, execOutcome, hdb]
  rw [← hdb]

/-- Branch characterization: `GET /api/profile` on an empty table — 404
"Profil tidak ditemukan". -/
theorem getProfile_absent_eq (w : World) (hdb : w.dbOk = true)
    (hnone : w.db.profile.head? = none) :
    handle .getProfile w =
      (failResponse 404 "Profil tidak ditemukan", w) := by
  have h1 : (w.db.profile.take 1).head? = none := by
    cases hp : w.db.profile with
    | nil => rfl
    | cons a tl => rw [hp] at hnone; cases hnone
  simp [handle, getProfileHandler, query_eq, execOutcome, hdb, h1]
  rw [← hdb]

/-- Branch characterization: `GET /api/profile` with a first row — 200
with that row serialized (`LIMIT 1`, no id filter). -/
theorem getProfile_found_eq (w : World) (row : ProfileRow)
    (hdb : w.dbOk = true) (hsome : w.db.profile.head? = some row) :
    handle .getProfile w = (okResponse 200 row.toJVal, w) := by
  have h1 : (w.db.profile.take 1).head? = some row := by
    cases hp : w.db.profile with
    | nil => rw [hp] at hsome; cases hsome
    | cons a tl =>
        rw [hp] at hsome
        simpa using hsome
  simp [handle, getProfileHandler, query_eq, execOutcome, hdb, h1]
  rw [← hdb]

/-- The response-envelope invariant: the body is a JSON object with a
boolean `success` field that is `true` exactly on the 2xx statuses, and
the status is one of 200, 201, 400, 404, 500. -/
def envelopeInv (resp : Response) : Prop :=
  (∃ b : Bool, resp.body.getField "success" = some (.bool b) ∧
     (b = true ↔ (resp.status = 200 ∨ resp.status = 201))) ∧
  (resp.status = 200 ∨ resp.status = 201 ∨ resp.status = 400 ∨
   resp.status = 404 ∨ resp.status = 500)

theorem envelopeInv_ok200 (d : JVal) : envelopeInv (okResponse 200 d) :=
  ⟨⟨true, rfl, by simp [okResponse]⟩, Or.inl rfl⟩

theorem envelopeInv_ok201 (d : JVal) : envelopeInv (okResponse 201 d) :=
  ⟨⟨true, rfl, by simp [okResponse]⟩, Or.inr (Or.inl rfl)⟩

theorem envelopeInv_fail400 (m : String) : envelopeInv (failResponse 400 m) :=
  ⟨⟨false, rfl, by simp [failResponse]⟩, by simp [failResponse]⟩

theorem envelopeInv_fail404 (m : String) : envelopeInv (failResponse 404 m) :=
  ⟨⟨false, rfl, by simp [failResponse]⟩, by simp [failResponse]⟩

theorem envelopeInv_fail500 (m : String) : envelopeInv (failResponse 500 m) :=
  ⟨⟨false, rfl, by simp [failResponse]⟩, by simp [failResponse]⟩

theorem envelopeInv_errorMiddleware (e : String) :
    envelopeInv (errorMiddleware e) :=
  ⟨⟨false, rfl, by simp [errorMiddleware]⟩, by simp [errorMiddleware]⟩

/-- C9: every request to any of the six endpoints — on every branch,
including validation failures, 404s, multer rejections, storage failures
and thrown query errors — is answered with the JSON envelope: a boolean
`success` field that is `true` exactly when the status is 2xx (200 or
201) and `false` exactly on 400, 404 and 500, these being the only
statuses ever produced. -/
theorem response_envelope_invariant (req : Request) (w : World) :
    envelopeInv (handle req w).1 := by
  cases req with
  | postHistory t m =>
      cases hf : (!jsTruthy t || !jsTruthy m) with
      | true => rw [postHistory_invalid_eq t m w hf]; exact envelopeInv_fail400 _
      | false =>
          have ht : jsTruthy t = true := by
            revert hf; cases jsTruthy t <;> simp
          have hm : jsTruthy m = true := by
            revert hf; cases jsTruthy m <;> simp
          cases hdb : w.dbOk with
          | true =>
              rw [postHistory_ok_eq t m w ht hm hdb]
              exact envelopeInv_ok201 _
          | false =>
              rw [postHistory_dbError_eq t m w ht hm hdb]
              exact envelopeInv_fail500 _
  | getHistory =>
      cases hdb : w.dbOk with
      | true => rw [getHistory_ok_eq w hdb]; exact envelopeInv_ok200 _
      | false => rw [getHistory_dbError_eq w hdb]; exact envelopeInv_fail500 _
  | getHistoryById id =>
      cases hdb : w.dbOk with
      | false =>
          rw [getHistoryById_dbError_eq id w hdb]; exact envelopeInv_fail500 _
      | true =>
          cases hh : (w.db.history.filter (fun r => r.id = id)).head? with
          | none =>
              rw [getHistoryById_absent_eq id w hdb hh]
              exact envelopeInv_fail404 _
          | some row =>
              rw [getHistoryById_found_eq id w row hdb hh]
              exact envelopeInv_ok200 _
  | getProfile =>
      cases hdb : w.dbOk with
      | false => rw [getProfile_dbError_eq w hdb]; exact envelopeInv_fail500 _
      | true =>
          cases hh : w.db.profile.head? with
          | none =>
              rw [getProfile_absent_eq w hdb hh]; exact envelopeInv_fail404 _
          | some row =>
              rw [getProfile_found_eq w row hdb hh]; exact envelopeInv_ok200 _
  | putProfile name file =>
      cases file with
      | none =>
          cases hn : jsTruthy name with
          | false =>
              rw [putProfile_badName_eq name none w hn (fun f h => by cases h)]
              exact envelopeInv_fail400 _
          | true =>
              cases hdb : w.dbOk with
              | true =>
                  rw [putProfile_none_ok_eq name w hn hdb]
                  exact envelopeInv_ok200 _
              | false =>
                  rw [putProfile_dbError_eq name none w hn
                        (fun f h => by cases h) (fun f h => by cases h) hdb]
                  exact envelopeInv_fail500 _
      | some f =>
          cases hmc : multerCheck f with
          | error e =>
              rw [putProfile_multerError_eq name f w e hmc]
              exact envelopeInv_errorMiddleware _
          | ok u =>
              cases u
              cases hn : jsTruthy name with
              | false =>
                  rw [putProfile_badName_eq name (some f) w hn
                        (fun g hg => by cases hg; exact hmc)]
                  exact envelopeInv_fail400 _
              | true =>
                  cases hs : w.storageOk with
                  | false =>
                      rw [putProfile_storageError_eq name f w hmc hn hs]
                      exact envelopeInv_fail500 _
                  | true =>
                      cases hdb : w.dbOk with
                      | true =>
                          rw [putProfile_some_ok_eq name f w hmc hn hs hdb]
                          exact envelopeInv_ok200 _
                      | false =>
                          rw [putProfile_dbError_eq name (some f) w hn
                                (fun g hg => by cases hg; exact hmc)
                                (fun g hg => hs) hdb]
                          exact envelopeInv_fail500 _
  | postFeedback c rat =>
      cases hf : (!jsTruthy c || !jsTruthy rat) with
      | true =>
          rw [postFeedback_invalid_eq c rat w hf]
          exact envelopeInv_fail400 _
      | false =>
          have hc : jsTruthy c = true := by
            revert hf; cases jsTruthy c <;> simp
          have hr : jsTruthy rat = true := by
            revert hf; cases jsTruthy rat <;> simp
          cases hro : (jsLtNum rat 1 || jsGtNum rat 4) with
          | true =>
              rw [postFeedback_range_eq c rat w hc hr hro]
              exact envelopeInv_fail400 _
          | false =>
              cases hdb : w.dbOk with
              | true =>
                  rw [postFeedback_ok_eq c rat w hc hr hro hdb]
                  exact envelopeInv_ok201 _
              | false =>
                  rw [postFeedback_dbError_eq c rat w hc hr hro hdb]
                  exact envelopeInv_fail500 _

/-- C4: if the object-storage write fails on a `PUT /api/profile` with a
multer-accepted file and truthy name, the stream error propagates and is
answered as status 500 with that error's message, the profile row is not
updated (the database is untouched: the UPDATE only runs after a
successful upload), and no object is finalized in the bucket. -/
theorem putProfile_storage_failure (name : JVal) (f : UploadedFile)
    (w : World) (hm : multerCheck f = .ok ())
    (hn : jsTruthy name = true) (hs : w.storageOk = false) :
    (handle (.putProfile name (some f)) w).1 =
      failResponse 500 w.storageErr ∧
    (handle (.putProfile name (some f)) w).2.db = w.db ∧
    (handle (.putProfile name (some f)) w).2.stored = w.stored := by
  rw [putProfile_storageError_eq name f w hm hn hs]
  exact ⟨rfl, rfl, rfl⟩

/-- A concrete world whose storage stream fails. -/
def exampleWorldStorageDown : World := { exampleWorld with storageOk := false }

/-- Witness for C4 at a concrete valid file and failing storage. -/
theorem putProfile_storage_failure_witness :
    (handle (.putProfile (.str "bob") (some exampleFile))
        exampleWorldStorageDown).1 =
      failResponse 500 exampleWorldStorageDown.storageErr ∧
    (handle (.putProfile (.str "bob") (some exampleFile))
        exampleWorldStorageDown).2.db = exampleWorldStorageDown.db ∧
    (handle (.putProfile (.str "bob") (some exampleFile))
        exampleWorldStorageDown).2.stored = exampleWorldStorageDown.stored :=
  putProfile_storage_failure (.str "bob") exampleFile exampleWorldStorageDown
    rfl rfl rfl

/-- C6: a multipart upload whose MIME type is outside the allow-list or
whose size exceeds 5 MiB is rejected by the transport layer as an
application-level error — a well-formed 500 envelope from the error
middleware — and the handler never runs: the world (database, bucket,
pool) is completely unchanged. -/
theorem upload_validation_rejects (name : JVal) (f : UploadedFile)
    (w : World)
    (hbad : f.mimetype ∉ allowedMimes ∨ 5 * 1024 * 1024 < f.size) :
    (handle (.putProfile name (some f)) w).1.status = 500 ∧
    (handle (.putProfile name (some f)) w).1.body.getField "success" =
      some (.bool false) ∧
    (handle (.putProfile name (some f)) w).2 = w := by
  have he : ∃ e, multerCheck f = .error e := by
    rcases hbad with hmime | hsize
    · exact ⟨"File harus berupa gambar.", by simp [multerCheck, hmime]⟩
    · by_cases hm : f.mimetype ∈ allowedMimes
      · exact ⟨"File too large", by simp [multerCheck, hm, not_le.mpr hsize]⟩
      · exact ⟨"File harus berupa gambar.", by simp [multerCheck, hm]⟩
  obtain ⟨e, he⟩ := he
  rw [putProfile_multerError_eq name f w e he]
  exact ⟨rfl, rfl, rfl⟩

/-- Witness for C6: a PDF upload against the example world. -/
theorem upload_validation_rejects_witness :
    (handle (.putProfile (.str "bob") (some examplePdf)) exampleWorld).1.status
        = 500 ∧
    (handle (.putProfile (.str "bob") (some examplePdf))
        exampleWorld).1.body.getField "success" = some (.bool false) ∧
    (handle (.putProfile (.str "bob") (some examplePdf)) exampleWorld).2 =
      exampleWorld :=
  upload_validation_rejects (.str "bob") examplePdf exampleWorld
    (Or.inl (by simp [examplePdf, allowedMimes]))

/-- The picture-URL member of a successful profile-update response: the
freshly derived URL when a file was uploaded, `null` otherwise. -/
def picField (w : World) : Option UploadedFile → JVal
  | some f => .str (publicUrl w.bucketName (storageKey w.now f.originalname))
  | none => .null

/-- C2: every successful (status 200) `PUT /api/profile` response carries
in its `data` object the updated name, and a picture URL exactly when a
file was uploaded in that same request — in which case it is the URL just
derived from this request's timestamp and filename; without a file the
`profile_picture_url` member is `null`, independent of whatever URL the
database stores (no re-fetch of the profile row happens). -/
theorem putProfile_response_fields (name : JVal) (file : Option UploadedFile)
    (w : World)
    (h200 : (handle (.putProfile name file) w).1.status = 200) :
    ((handle (.putProfile name file) w).1.body.getField "data").bind
        (fun d => d.getField "name") = some name ∧
    ((handle (.putProfile name file) w).1.body.getField "data").bind
        (fun d => d.getField "profile_picture_url") =
      some (picField w file) := by
  cases file with
  | none =>
      cases hn : jsTruthy name with
      | false =>
          rw [putProfile_badName_eq name none w hn (fun f h => by cases h)]
            at h200
          simp [failResponse] at h200
      | true =>
          cases hdb : w.dbOk with
          | false =>
              rw [putProfile_dbError_eq name none w hn (fun f h => by cases h)
                    (fun f h => by cases h) hdb] at h200
              simp [failResponse] at h200
          | true =>
              rw [putProfile_none_ok_eq name w hn hdb]
              exact ⟨rfl, rfl⟩

  | some f =>
      cases hmc : multerCheck f with
      | error e =>
          rw [putProfile_multerError_eq name f w e hmc] at h200
          simp [errorMiddleware] at h200
      | ok u =>
          cases u
          cases hn : jsTruthy name with
          | false =>
              rw [putProfile_badName_eq name (some f) w hn
                    (fun g hg => by cases hg; exact hmc)] at h200
              simp [failResponse] at h200
          | true =>
              cases hs : w.storageOk with
              | false =>
                  rw [putProfile_storageError_eq name f w hmc hn hs] at h200
                  simp [failResponse] at h200
              | true =>
                  cases hdb : w.dbOk with
                  | false =>
                      rw [putProfile_dbError_eq name (some f) w hn
                            (fun g hg => by cases hg; exact hmc)
                            (fun g hg => hs) hdb] at h200
                      simp [failResponse] at h200
                  | true =>
                      rw [putProfile_some_ok_eq name f w hmc hn hs hdb]
                      exact ⟨rfl, rfl⟩

/-- Witness for C2: a successful file-less update returns the name and a
`null` picture URL even though the stored row has a picture URL. -/
theorem putProfile_response_fields_witness :
    (((handle (.putProfile (.str "bob") none) exampleWorld).1.body.getField
        "data").bind (fun d => d.getField "name") = some (.str "bob") ∧
     ((handle (.putProfile (.str "bob") none) exampleWorld).1.body.getField
        "data").bind (fun d => d.getField "profile_picture_url") =
       some .null) :=
  putProfile_response_fields (.str "bob") none exampleWorld rfl

/-- The one-parameter UPDATE shape touches no `profile_picture_url`. -/
theorem updateProfileRows_none_pictures (name : JVal)
    (rows : List ProfileRow) :
    (updateProfileRows name none rows).map ProfileRow.profile_picture_url =
      rows.map ProfileRow.profile_picture_url := by
  induction rows with
  | nil => rfl
  | cons r rs ih =>
      by_cases h : r.id = 1 <;>
        simp [updateProfileRows, h] at ih ⊢ <;> exact ih

/-- C3: frame effect of `PUT /api/profile`.  (a) A successful request
without a file leaves the stored `profile_picture_url` column of every
row unchanged.  (b) A successful request with a file rewrites exactly the
rows with id 1, setting their picture URL to the newly derived URL — a
string ending in `<upload-timestamp>-<original-filename>`. -/
theorem putProfile_frame :
    (∀ (name : JVal) (w : World),
      (handle (.putProfile name none) w).1.status = 200 →
      ((handle (.putProfile name none) w).2.db.profile).map
          ProfileRow.profile_picture_url =
        w.db.profile.map ProfileRow.profile_picture_url) ∧
    (∀ (name : JVal) (f : UploadedFile) (w : World),
      (handle (.putProfile name (some f)) w).1.status = 200 →
      (handle (.putProfile name (some f)) w).2.db.profile =
        w.db.profile.map (fun r =>
          if r.id = 1 then
            { r with name := name,
                     profile_picture_url :=
                       some (publicUrl w.bucketName
                         (storageKey w.now f.originalname)) }
          else r) ∧
      ∃ pre, publicUrl w.bucketName (storageKey w.now f.originalname) =
        pre ++ toString w.now ++ "-" ++ f.originalname) := by
  constructor
  · intro name w h200
    cases hn : jsTruthy name with
    | false =>
        rw [putProfile_badName_eq name none w hn (fun f h => by cases h)]
          at h200
        simp [failResponse] at h200
    | true =>
        cases hdb : w.dbOk with
        | false =>
            rw [putProfile_dbError_eq name none w hn (fun f h => by cases h)
                  (fun f h => by cases h) hdb] at h200
            simp [failResponse] at h200
        | true =>
            rw [putProfile_none_ok_eq name w hn hdb]
            exact updateProfileRows_none_pictures name w.db.profile
  · intro name f w h200
    cases hmc : multerCheck f with
    | error e =>
        rw [putProfile_multerError_eq name f w e hmc] at h200
        simp [errorMiddleware] at h200
    | ok u =>
        cases u
        cases hn : jsTruthy name with
        | false =>
            rw [putProfile_badName_eq name (some f) w hn
                  (fun g hg => by cases hg; exact hmc)] at h200
            simp [failResponse] at h200
        | true =>
            cases hs : w.storageOk with
            | false =>
                rw [putProfile_storageError_eq name f w hmc hn hs] at h200
                simp [failResponse] at h200
            | true =>
                cases hdb : w.dbOk with
                | false =>
                    rw [putProfile_dbError_eq name (some f) w hn
                          (fun g hg => by cases hg; exact hmc)
                          (fun g hg => hs) hdb] at h200
                    simp [failResponse] at h200
                | true =>
                    rw [putProfile_some_ok_eq name f w hmc hn hs hdb]
                    refine ⟨by simp [updateProfileRows], ?_⟩
                    refine ⟨"https://storage.googleapis.com/" ++
                      w.bucketName ++ "/" ++ "profiles/", ?_⟩
                    simp only [publicUrl, storageKey, String.append_assoc]

/-- Witness for C3: both conjuncts applied at concrete inputs against the
example world (whose seeded row keeps its picture URL in part (a)). -/
theorem putProfile_frame_witness :
    (((handle (.putProfile (.str "bob") none) exampleWorld).2.db.profile).map
        ProfileRow.profile_picture_url =
      exampleWorld.db.profile.map ProfileRow.profile_picture_url) ∧
    ((handle (.putProfile (.str "bob") (some exampleFile))
        exampleWorld).2.db.profile =
      exampleWorld.db.profile.map (fun r =>
        if r.id = 1 then
          { r with name := .str "bob",
                   profile_picture_url :=
                     some (publicUrl exampleWorld.bucketName
                       (storageKey exampleWorld.now
                         exampleFile.originalname)) }
        else r) ∧
     ∃ pre, publicUrl exampleWorld.bucketName
         (storageKey exampleWorld.now exampleFile.originalname) =
       pre ++ toString exampleWorld.now ++ "-" ++ exampleFile.originalname) :=
  ⟨putProfile_frame.1 (.str "bob") exampleWorld rfl,
   putProfile_frame.2 (.str "bob") exampleFile exampleWorld rfl⟩

/-- Both UPDATE shapes leave a first row untouched when its id is not 1. -/
theorem updateProfileRows_head_ne1 (name : JVal) (pu : Option String)
    (rows : List ProfileRow) (row : ProfileRow)
    (hhead : rows.head? = some row) (hid : row.id ≠ 1) :
    (updateProfileRows name pu rows).head? = some row := by
  cases rows with
  | nil => cases hhead
  | cons a tl =>
      have ha : a = row := by simpa using hhead
      subst ha
      simp [updateProfileRows, hid]

/-- C10: `GET /api/profile` reads the table's first row (`LIMIT 1`, no id
filter) while `PUT /api/profile` writes only rows with id 1; so whenever
the first row's id is not 1, the row GET serves is one PUT never
modifies — it is still the first row after any PUT, and GET returns it
verbatim. -/
theorem getProfile_reads_row_put_never_writes (w : World) (name : JVal)
    (file : Option UploadedFile) (row : ProfileRow)
    (hhead : w.db.profile.head? = some row) (hid : row.id ≠ 1) :
    (handle (.putProfile name file) w).2.db.profile.head? = some row ∧
    (w.dbOk = true →
      handle .getProfile w = (okResponse 200 row.toJVal, w)) := by
  refine ⟨?_, fun hdb => getProfile_found_eq w row hdb hhead⟩
  cases file with
  | none =>
      cases hn : jsTruthy name with
      | false =>
          rw [putProfile_badName_eq name none w hn (fun f h => by cases h)]
          exact hhead
      | true =>
          cases hdb : w.dbOk with
          | false =>
              rw [putProfile_dbError_eq name none w hn (fun f h => by cases h)
                    (fun f h => by cases h) hdb]
              exact hhead
          | true =>
              rw [putProfile_none_ok_eq name w hn hdb]
              exact updateProfileRows_head_ne1 name none w.db.profile row
                hhead hid
  | some f =>
      cases hmc : multerCheck f with
      | error e =>
          rw [putProfile_multerError_eq name f w e hmc]
          exact hhead
      | ok u =>
          cases u
          cases hn : jsTruthy name with
          | false =>
              rw [putProfile_badName_eq name (some f) w hn
                    (fun g hg => by cases hg; exact hmc)]
              exact hhead
          | true =>
              cases hs : w.storageOk with
              | false =>
                  rw [putProfile_storageError_eq name f w hmc hn hs]
                  exact hhead
              | true =>
                  cases hdb : w.dbOk with
                  | false =>
                      rw [putProfile_dbError_eq name (some f) w hn
                            (fun g hg => by cases hg; exact hmc)
                            (fun g hg => hs) hdb]
                      exact hhead
                  | true =>
                      rw [putProfile_some_ok_eq name f w hmc hn hs hdb]
                      exact updateProfileRows_head_ne1 name
                        (some (publicUrl w.bucketName
                          (storageKey w.now f.originalname)))
                        w.db.profile row hhead hid

/-- Witness for C10: the example table's first row has id 2, and it
survives a successful PUT and is what GET returns. -/
theorem getProfile_reads_row_put_never_writes_witness :
    (handle (.putProfile (.str "bob") none) exampleWorld).2.db.profile.head? =
      some { id := 2, name := .str "seed",
             profile_picture_url := some "https://old.example/pic.png" } ∧
    (exampleWorld.dbOk = true →
      handle .getProfile exampleWorld =
        (okResponse 200
          (ProfileRow.toJVal
            { id := 2, name := .str "seed",
              profile_picture_url := some "https://old.example/pic.png" }),
         exampleWorld)) :=
  getProfile_reads_row_put_never_writes exampleWorld (.str "bob") none
    { id := 2, name := .str "seed",
      profile_picture_url := some "https://old.example/pic.png" }
    rfl (by simp)
